import Mathlib

/-
Verification of the S3 storage adapter (esperoj/storage/s3.py).

The module is a thin adapter over an S3-protocol client.  We embed its data
model and operations shallowly:

* the configuration dictionary becomes a partial map `String → Option Val`;
* the external client calls (stat_object, remove_object, list_objects,
  presigned_get_object, fput_object, get_object) become explicit function
  parameters or a concrete store model, following the consumed interface the
  adapter relies on;
* Python exceptions become `Except` results: the builtin `FileNotFoundError`
  is `Err.fileNotFound` (the abstraction calls it NotFoundError) and the
  client library error `S3Error` is `Err.s3Error` (the abstraction calls it
  StorageError);
* the streaming response of `get_file` becomes an explicit state machine
  recording whether the underlying connection has been closed/released.
-/

namespace EsperojS3

/-- A configuration value: the adapter's config dict holds strings, booleans
and integers. -/
inductive Val where
  | str (s : String)
  | bool (b : Bool)
  | nat (n : Nat)
  deriving DecidableEq, Repr

/-- A configuration dictionary: a partial map from key names to values. -/
def Config : Type := String → Option Val

/-- Embeds `S3Storage.__DEFAULT_CONFIG` from `S3Storage.__init__` (s3.py lines
48-57). -/
def DEFAULT_CONFIG : Config := fun k =>
  if k = "name" then some (.str "S3 Storage")
  else if k = "bucket_name" then some (.str "esperoj")
  else if k = "endpoint" then some (.str "localhost:9000")
  else if k = "access_key" then some (.str "minioadmin")
  else if k = "secret_key" then some (.str "minioadmin")
  else if k = "secure" then some (.bool true)
  else if k = "region" then some (.str "eu-central-1")
  else if k = "multipart_chunksize" then some (.nat (2 ^ 20 * 64))
  else none

/-- Python dict union `d | u`: every key of either dict is present, with the
right operand winning on shared keys. -/
def mergeConfig (d u : Config) : Config := fun k =>
  match u k with
  | some v => some v
  | none => d k

/-- Embeds `self.config = self.__DEFAULT_CONFIG | config` (s3.py line 58). -/
def initConfig (user : Config) : Config :=
  mergeConfig DEFAULT_CONFIG user

/-- Read a string-valued key from the config (Python `self.config[k]`; on the
merged config the keys used by the adapter are always present). -/
def getStr (cfg : Config) (k : String) : String :=
  match cfg k with
  | some (.str s) => s
  | _ => ""

/-- Read an integer-valued key from the config (Python `self.config[k]`). -/
def getNat (cfg : Config) (k : String) : Nat :=
  match cfg k with
  | some (.nat n) => n
  | _ => 0

/-- The client library error `S3Error`, carrying a machine-readable code
(e.g. "NoSuchKey") and a message.  The storage abstraction's vocabulary calls
a propagated `S3Error` a StorageError. -/
structure S3Err where
  code : String
  message : String
  deriving DecidableEq, Repr

/-- Python `str(e)` on an `S3Error`: the textual rendering of the failure,
used by `delete_files` for the per-path error message. -/
def S3Err.str (e : S3Err) : String :=
  "S3 operation failed; code: " ++ e.code ++ ", message: " ++ e.message

/-- The exceptions the adapter lets escape: the builtin `FileNotFoundError`
(the abstraction's NotFoundError) and the client's `S3Error` (the
abstraction's StorageError). -/
inductive Err where
  | fileNotFound (message : String)
  | s3Error (e : S3Err)
  deriving DecidableEq, Repr

/-- Metadata returned by the client's `stat_object`: the adapter only reads
`.size`. -/
structure Stat where
  size : Nat
  deriving DecidableEq, Repr

/-- Modelled from the spec: the delete-files response record of the storage
abstraction (`esperoj.storage.storage.DeleteFilesResponse`, not under src/):
"a record {errors: ordered sequence of {path, message}}". -/
structure DeleteError where
  path : String
  message : String
  deriving DecidableEq, Repr

/-- Modelled from the spec: the delete-files response record; an empty
`errors` sequence means full success. -/
structure DeleteFilesResponse where
  errors : List DeleteError
  deriving DecidableEq, Repr

/-- Modelled from the spec: a concrete model of the object store consumed by
the client — an association list from object keys to byte content (keys are
assumed distinct; lookup takes the first binding). -/
def Store : Type := List (String × List Nat)

/-- Look an object up in the store. -/
def lookupStore (s : Store) (k : String) : Option (List Nat) :=
  (s.find? (fun b => b.1 = k)).map (fun b => b.2)

/-- Modelled from the spec: the client's `stat_object(bucket, key)` — returns
size/metadata, "fails with a coded error when absent"; the adapter's own
`file_exists` shows that the code for an absent key is "NoSuchKey". -/
def statObject (s : Store) (_bucket key : String) : Except S3Err Stat :=
  match lookupStore s key with
  | some data => .ok ⟨data.length⟩
  | none => .error ⟨"NoSuchKey", "Object does not exist"⟩

/-- Tests that `k` starts with `pre`, as a prefix of the character sequence. -/
def startsWithKey (k pre : String) : Bool :=
  pre.data.isPrefixOf k.data

/-- Modelled from the spec: the client's
`list_objects(bucket, prefix=path, recursive=True)` followed by the
adapter's projection `[obj.object_name for obj in objects]` — all object
keys in the bucket whose name starts with `path`. -/
def listObjectsClient (s : Store) (_bucket pre : String) : List String :=
  (s.map (fun b => b.1)).filter (fun k => startsWithKey k pre)

/-- Embeds `S3Storage.delete_files` (s3.py lines 67-82): attempts
`client.remove_object(bucket_name, path)` for each path, appending
`{"path": path, "message": str(e)}` for each `S3Error`, and returns
`{"errors": errors}`.  `removeObject` is the client call
(bucket, key) ↦ result.  The function is total: no exception escapes. -/
def delete_files (cfg : Config)
    (removeObject : String → String → Except S3Err Unit)
    (paths : List String) : DeleteFilesResponse :=
  { errors := paths.filterMap fun path =>
      match removeObject (getStr cfg "bucket_name") path with
      | .ok _ => none
      | .error e => some ⟨path, e.str⟩ }

/-- Embeds `S3Storage.file_exists` (s3.py lines 96-114): `stat_object` then `True`;
on `S3Error` with code "NoSuchKey" return `False`; re-raise any other
`S3Error`. -/
def file_exists (cfg : Config)
    (stat : String → String → Except S3Err Stat)
    (path : String) : Except Err Bool :=
  match stat (getStr cfg "bucket_name") path with
  | .ok _ => .ok true
  | .error e => if e.code = "NoSuchKey" then .ok false else .error (.s3Error e)

/-- Value of `timedelta(days=7)` in seconds: the expiry passed by `get_link` to
`presigned_get_object`. -/
def sevenDaysSeconds : Nat := 7 * 24 * 60 * 60

/-- Embeds `S3Storage.get_link` (s3.py lines 116-132): raise
`FileNotFoundError(f"No such file: '{path}'")` when `file_exists(path)` is
false, else return `client.presigned_get_object(bucket_name, path,
expires=timedelta(days=7))`.  `presign` is the client call
(bucket, key, expires) ↦ URL; an exception escaping `file_exists`
propagates. -/
def get_link (cfg : Config)
    (stat : String → String → Except S3Err Stat)
    (presign : String → String → Nat → String)
    (path : String) : Except Err String :=
  match file_exists cfg stat path with
  | .error e => .error e
  | .ok false => .error (.fileNotFound ("No such file: \x27" ++ path ++ "\x27"))
  | .ok true => .ok (presign (getStr cfg "bucket_name") path sevenDaysSeconds)

/-- Embeds `S3Storage.list_files` (s3.py lines 149-167): collect the object names
under the prefix; raise `FileNotFoundError(f"No such directory: '{path}'")`
when the list is empty, else return it. -/
def list_files (cfg : Config) (store : Store) (path : String) :
    Except Err (List String) :=
  let files := listObjectsClient store (getStr cfg "bucket_name") path
  if files = [] then
    .error (.fileNotFound ("No such directory: \x27" ++ path ++ "\x27"))
  else
    .ok files

/-- One `fput_object` call issued by the adapter, with the arguments the
source passes (s3.py lines 180-185). -/
structure PutCall where
  bucket : String
  key : String
  src : String
  partSize : Nat
  deriving DecidableEq, Repr

/-- Embeds `S3Storage.upload_file` (s3.py lines 169-187):
`client.fput_object(bucket_name, dst, src, part_size=multipart_chunksize)`,
re-raising any `S3Error`.  `fput` is the client call
(bucket, key, local path, part size) ↦ result; the second component records
the client puts issued, in order. -/
def upload_file (cfg : Config)
    (fput : String → String → String → Nat → Except S3Err Unit)
    (src dst : String) : Except Err Unit × List PutCall :=
  let b := getStr cfg "bucket_name"
  let ps := getNat cfg "multipart_chunksize"
  (match fput b dst src ps with
   | .ok u => .ok u
   | .error e => .error (.s3Error e),
   [⟨b, dst, src, ps⟩])

/-- Embeds `S3Storage.size` (s3.py lines 189-204): `stat_object`; return
`stats.size` when truthy, else raise `FileNotFoundError()` (which is not an
`S3Error`, so it escapes the `except` clause); re-raise any `S3Error` from
the probe unchanged. -/
def size (cfg : Config)
    (stat : String → String → Except S3Err Stat)
    (src : String) : Except Err Nat :=
  match stat (getStr cfg "bucket_name") src with
  | .ok stats => if stats.size ≠ 0 then .ok stats.size else .error (.fileNotFound "")
  | .error e => .error (.s3Error e)

/-- Embeds `StreamResponse` (s3.py lines 12-28) as a state machine: the remaining
chunks of `response.stream()`, and whether `response.close()` /
`response.release_conn()` have been called. -/
structure StreamResponse where
  chunks : List (List Nat)
  closed : Bool
  released : Bool
  deriving DecidableEq, Repr

/-- Embeds `StreamResponse.__next__` (s3.py lines 22-28): pull the next chunk from
the underlying stream.  If the underlying stream is exhausted its
`StopIteration` propagates with no release (first branch); if the chunk is
falsy (empty), close and release the connection and stop (second branch);
otherwise return the chunk. -/
def StreamResponse.next (s : StreamResponse) :
    Option (List Nat) × StreamResponse :=
  match s.chunks with
  | [] => (none, s)
  | c :: rest =>
      if c = [] then (none, { chunks := rest, closed := true, released := true })
      else (some c, { s with chunks := rest })

/-- Embeds `S3Storage.get_file` (s3.py lines 134-147): wrap the streaming response
of `client.get_object` (modelled by its chunk sequence) in a fresh
`StreamResponse`; the connection starts neither closed nor released. -/
def get_file (chunks : List (List Nat)) : StreamResponse :=
  { chunks := chunks, closed := false, released := false }

/-- A consumer that pulls at most `n` chunks and then abandons the iterator
(stopping earlier if iteration stops).  Returns the chunks obtained and the
final state of the stream response. -/
def consume : Nat → StreamResponse → List (List Nat) × StreamResponse
  | 0, s => ([], s)
  | n + 1, s =>
      match s.next with
      | (none, s2) => ([], s2)
      | (some c, s2) =>
          let r := consume n s2
          (c :: r.1, r.2)

instance {ε α : Type} [DecidableEq ε] [DecidableEq α] : DecidableEq (Except ε α)
  | .error x, .error y =>
      if h : x = y then isTrue (by rw [h]) else isFalse (fun hc => h (by injection hc))
  | .error _, .ok _ => isFalse (fun hc => Except.noConfusion hc)
  | .ok _, .error _ => isFalse (fun hc => Except.noConfusion hc)
  | .ok x, .ok y =>
      if h : x = y then isTrue (by rw [h]) else isFalse (fun hc => h (by injection hc))

/-- A fully-default configuration: the adapter constructed with an empty
user mapping. -/
def exampleCfg : Config := initConfig (fun _ => none)

/-- A user configuration setting only the "secure" key. -/
def exampleUser : Config := fun k =>
  if k = "secure" then some (.bool false) else none

/-- A concrete remove_object client for witnesses: deleting key "bad" fails
with NoSuchKey, every other key succeeds. -/
def exampleRemove : String → String → Except S3Err Unit := fun _ k =>
  if k = "bad" then .error ⟨"NoSuchKey", "Object does not exist"⟩ else .ok ()

/-- A concrete store for witnesses: keys "a/1", "a/2", "b/1" with small
contents, plus the zero-byte object "empty". -/
def exampleStore : Store :=
  [("a/1", [10]), ("a/2", [20, 21]), ("b/1", [30, 31, 32]), ("empty", [])]

/-- Whether a `size` outcome is the NotFoundError exception
(`FileNotFoundError`), as opposed to a successful size or a propagated
`S3Error`. -/
def isNotFoundNat : Except Err Nat → Bool
  | .error (.fileNotFound _) => true
  | _ => false

/-- C1: the adapter configuration is the default mapping overridden
key-by-key by the user mapping (right-biased merge): a key present in the
user mapping takes the user value, a key absent from it takes the default,
and the defaults are name="S3 Storage", bucket_name="esperoj",
endpoint="localhost:9000", secure=true, region="eu-central-1",
multipart_chunksize=64 MiB. -/
theorem C1_config_merge (user : Config) (k : String) :
    (∀ v, user k = some v → initConfig user k = some v) ∧
    (user k = none → initConfig user k = DEFAULT_CONFIG k) ∧
    DEFAULT_CONFIG "name" = some (.str "S3 Storage") ∧
    DEFAULT_CONFIG "bucket_name" = some (.str "esperoj") ∧
    DEFAULT_CONFIG "endpoint" = some (.str "localhost:9000") ∧
    DEFAULT_CONFIG "secure" = some (.bool true) ∧
    DEFAULT_CONFIG "region" = some (.str "eu-central-1") ∧
    DEFAULT_CONFIG "multipart_chunksize" = some (.nat (64 * 1024 * 1024)) := by
  refine ⟨?_, ?_, rfl, rfl, rfl, rfl, rfl, rfl⟩
  · intro v hv
    simp [initConfig, mergeConfig, hv]
  · intro hv
    simp [initConfig, mergeConfig, hv]

/-- Witness for C1 at a concrete user mapping: the set key "secure" takes
the user value, the unset key "region" takes the default. -/
theorem C1_config_merge_witness :
    initConfig exampleUser "secure" = some (.bool false) ∧
    initConfig exampleUser "region" = some (.str "eu-central-1") := by
  constructor
  · exact (C1_config_merge exampleUser "secure").1 (.bool false) rfl
  · exact ((C1_config_merge exampleUser "region").2.1 rfl).trans rfl

/-- C2: the claim says the connection underlying a `get_file` stream is
released exactly once on every exit path, both on natural exhaustion and on
early abandonment.  The code violates this: release happens only inside
`__next__` when a falsy chunk is pulled, so (i) a consumer that abandons
iteration after one chunk of a three-chunk stream leaves the connection
unreleased, (ii) a consumer that exhausts a stream whose underlying
iterator ends without yielding a falsy chunk also leaves it unreleased;
(iii) only exhaustion through a falsy chunk releases it. -/
theorem C2_stream_release_leak :
    ((consume 1 (get_file [[1], [2], []])).2.released = false) ∧
    ((consume 5 (get_file [[1], [2]])).2.released = false) ∧
    ((consume 5 (get_file [[1], [2], []])).2.released = true) := by
  decide

/-- C3: `delete_files` attempts each path independently and never raises (it
is a total function into `DeleteFilesResponse`); its errors sequence
contains a {path, message} entry exactly for the paths whose deletion
failed, and it is empty iff every deletion succeeded. -/
theorem C3_delete_files_partial_failure (cfg : Config)
    (removeObject : String → String → Except S3Err Unit) (paths : List String) :
    (∀ p m, (⟨p, m⟩ : DeleteError) ∈ (delete_files cfg removeObject paths).errors ↔
      p ∈ paths ∧ ∃ e, removeObject (getStr cfg "bucket_name") p = .error e ∧
        m = S3Err.str e) ∧
    ((delete_files cfg removeObject paths).errors = [] ↔
      ∀ p ∈ paths, removeObject (getStr cfg "bucket_name") p = .ok ()) := by
  have hunfold : (delete_files cfg removeObject paths).errors
      = paths.filterMap (fun path =>
          match removeObject (getStr cfg "bucket_name") path with
          | .ok _ => none
          | .error e => some ⟨path, S3Err.str e⟩) := rfl
  constructor
  · intro p m
    rw [hunfold]
    constructor
    · intro hmem
      rcases List.mem_filterMap.mp hmem with ⟨a, ha, hfa⟩
      cases hr : removeObject (getStr cfg "bucket_name") a with
      | ok u => rw [hr] at hfa; simp at hfa
      | error e =>
          rw [hr] at hfa
          simp only [Option.some.injEq, DeleteError.mk.injEq] at hfa
          obtain ⟨hap, hme⟩ := hfa
          exact ⟨hap ▸ ha, e, hap ▸ hr, hme.symm⟩
    · rintro ⟨hp, e, hr, hm⟩
      refine List.mem_filterMap.mpr ⟨p, hp, ?_⟩
      subst hm
      rw [hr]
  · rw [hunfold, List.filterMap_eq_nil_iff]
    constructor
    · intro h p hp
      have hfp := h p hp
      cases hr : removeObject (getStr cfg "bucket_name") p with
      | ok u => cases u; rfl
      | error e => rw [hr] at hfp; simp at hfp
    · intro h p hp
      rw [h p hp]

/-- Witness for C3 at a concrete client and path list: deleting
["good", "bad"] reports an error entry for "bad", and deleting ["good"]
reports no errors. -/
theorem C3_delete_files_partial_failure_witness :
    (⟨"bad", S3Err.str ⟨"NoSuchKey", "Object does not exist"⟩⟩ : DeleteError) ∈
      (delete_files exampleCfg exampleRemove ["good", "bad"]).errors ∧
    (delete_files exampleCfg exampleRemove ["good"]).errors = [] := by
  constructor
  · exact ((C3_delete_files_partial_failure exampleCfg exampleRemove
      ["good", "bad"]).1 "bad" _).mpr
      ⟨by simp, ⟨"NoSuchKey", "Object does not exist"⟩, rfl, rfl⟩
  · exact (C3_delete_files_partial_failure exampleCfg exampleRemove
      ["good"]).2.mpr (by intro p hp; simp at hp; subst hp; rfl)

/-- C10: the errors sequence of `delete_files` is a subsequence of the
input path list — each entry names an input path, entries are in the input
order — and each entry carries the text of the failure reported for its
path. -/
theorem C10_delete_errors_subsequence (cfg : Config)
    (removeObject : String → String → Except S3Err Unit) (paths : List String) :
    List.Sublist ((delete_files cfg removeObject paths).errors.map DeleteError.path)
      paths ∧
    ∀ err ∈ (delete_files cfg removeObject paths).errors,
      ∃ e, removeObject (getStr cfg "bucket_name") err.path = .error e ∧
        err.message = S3Err.str e := by
  constructor
  · induction paths with
    | nil => exact List.Sublist.refl []
    | cons p rest ih =>
        have hunfold : (delete_files cfg removeObject (p :: rest)).errors
            = (match removeObject (getStr cfg "bucket_name") p with
                | .ok _ => none
                | .error e => some (⟨p, S3Err.str e⟩ : DeleteError)).toList ++
              (delete_files cfg removeObject rest).errors := by
          simp [delete_files, List.filterMap_cons]
          cases removeObject (getStr cfg "bucket_name") p <;> simp
        rw [hunfold]
        cases removeObject (getStr cfg "bucket_name") p with
        | ok u => simpa using List.Sublist.cons p ih
        | error e => simpa using List.Sublist.cons₂ p ih
  · intro err hmem
    rcases List.mem_filterMap.mp hmem with ⟨a, _, hfa⟩
    cases hr : removeObject (getStr cfg "bucket_name") a with
    | ok u => rw [hr] at hfa; simp at hfa
    | error e =>
        rw [hr] at hfa
        simp only [Option.some.injEq] at hfa
        subst hfa
        exact ⟨e, hr, rfl⟩

/-- Witness for C10 at a concrete client and path list: the error paths of
deleting ["good", "bad", "good2"] form a subsequence of the input, and the
single entry carries the reported failure text. -/
theorem C10_delete_errors_subsequence_witness :
    List.Sublist
      ((delete_files exampleCfg exampleRemove ["good", "bad", "good2"]).errors.map
        DeleteError.path) ["good", "bad", "good2"] ∧
    ∃ e, exampleRemove (getStr exampleCfg "bucket_name") "bad" = .error e ∧
      S3Err.str ⟨"NoSuchKey", "Object does not exist"⟩ = S3Err.str e := by
  constructor
  · exact (C10_delete_errors_subsequence exampleCfg exampleRemove
      ["good", "bad", "good2"]).1
  · have h := (C10_delete_errors_subsequence exampleCfg exampleRemove
      ["good", "bad", "good2"]).2 ⟨"bad", S3Err.str ⟨"NoSuchKey", "Object does not exist"⟩⟩
      (by simp [delete_files, exampleRemove, exampleCfg])
    exact h

/-- C4: `file_exists` returns true when the metadata probe succeeds,
returns false exactly when the probe fails with code "NoSuchKey", and
propagates any other probe failure to the caller as a StorageError (the
re-raised `S3Error`). -/
theorem C4_file_exists_probe (cfg : Config)
    (stat : String → String → Except S3Err Stat) (path : String) :
    (∀ s, stat (getStr cfg "bucket_name") path = .ok s →
      file_exists cfg stat path = .ok true) ∧
    (∀ e, stat (getStr cfg "bucket_name") path = .error e → e.code = "NoSuchKey" →
      file_exists cfg stat path = .ok false) ∧
    (∀ e, stat (getStr cfg "bucket_name") path = .error e → e.code ≠ "NoSuchKey" →
      file_exists cfg stat path = .error (.s3Error e)) := by
  refine ⟨?_, ?_, ?_⟩
  · intro s hs
    simp [file_exists, hs]
  · intro e he hc
    simp [file_exists, he, hc]
  · intro e he hc
    simp [file_exists, he, hc]

/-- Witness for C4 at a concrete store and paths: an existing key probes
true, a missing key probes false, and a non-NoSuchKey probe failure
propagates. -/
theorem C4_file_exists_probe_witness :
    file_exists exampleCfg (statObject exampleStore) "a/1" = .ok true ∧
    file_exists exampleCfg (statObject exampleStore) "z/9" = .ok false ∧
    file_exists exampleCfg (fun _ _ => .error ⟨"AccessDenied", "denied"⟩) "a/1" =
      .error (.s3Error ⟨"AccessDenied", "denied"⟩) := by
  refine ⟨?_, ?_, ?_⟩
  · exact (C4_file_exists_probe exampleCfg (statObject exampleStore) "a/1").1
      ⟨1⟩ rfl
  · exact (C4_file_exists_probe exampleCfg (statObject exampleStore) "z/9").2.1
      ⟨"NoSuchKey", "Object does not exist"⟩ rfl rfl
  · exact (C4_file_exists_probe exampleCfg
      (fun _ _ => .error ⟨"AccessDenied", "denied"⟩) "a/1").2.2
      ⟨"AccessDenied", "denied"⟩ rfl (by decide)

/-- C5: `list_files` returns exactly the object keys in the bucket whose
name starts with the prefix, and raises NotFoundError (the
`FileNotFoundError` of the source) if and only if that result set is empty;
these two outcomes are exhaustive, so an empty prefix is indistinguishable
from a nonexistent one. -/
theorem C5_list_files_matching_keys (cfg : Config) (store : Store) (path : String) :
    (listObjectsClient store (getStr cfg "bucket_name") path ≠ [] →
      list_files cfg store path =
        .ok (listObjectsClient store (getStr cfg "bucket_name") path)) ∧
    (listObjectsClient store (getStr cfg "bucket_name") path = [] →
      list_files cfg store path =
        .error (.fileNotFound ("No such directory: \x27" ++ path ++ "\x27"))) := by
  constructor
  · intro h
    simp [list_files, h]
  · intro h
    simp [list_files, h]

/-- Witness for C5 on the store {"a/1","a/2","b/1","empty"}: prefix "a/"
returns exactly ["a/1","a/2"], prefix "z/" raises NotFoundError. -/
theorem C5_list_files_matching_keys_witness :
    list_files exampleCfg exampleStore "a/" = .ok ["a/1", "a/2"] ∧
    list_files exampleCfg exampleStore "z/" =
      .error (.fileNotFound ("No such directory: \x27z/\x27")) := by
  constructor
  · exact ((C5_list_files_matching_keys exampleCfg exampleStore "a/").1 (by decide)).trans
      (by decide)
  · exact ((C5_list_files_matching_keys exampleCfg exampleStore "z/").2 (by decide)).trans
      rfl

/-- C6: when `file_exists path` is false, `get_link` raises NotFoundError
and the signing logic is never consulted (the result is the same for every
presign function); when `file_exists path` is true it returns the
pre-signed URL produced by the client for that key with a 7-day expiry
(604800 seconds). -/
theorem C6_get_link_not_found_first (cfg : Config)
    (stat : String → String → Except S3Err Stat) (path : String) :
    (file_exists cfg stat path = .ok false →
      ∀ presign : String → String → Nat → String,
        get_link cfg stat presign path =
          .error (.fileNotFound ("No such file: \x27" ++ path ++ "\x27"))) ∧
    (file_exists cfg stat path = .ok true →
      ∀ presign : String → String → Nat → String,
        get_link cfg stat presign path =
          .ok (presign (getStr cfg "bucket_name") path (7 * 24 * 60 * 60))) := by
  constructor
  · intro h presign
    simp [get_link, h]
  · intro h presign
    simp [get_link, h, sevenDaysSeconds]

/-- Witness for C6 at a concrete store: a missing key yields NotFoundError
independently of the presign function, an existing key yields the presigned
URL for that key with the 7-day expiry. -/
theorem C6_get_link_not_found_first_witness :
    get_link exampleCfg (statObject exampleStore)
      (fun b k e => b ++ "/" ++ k ++ "?expires=" ++ toString e) "z/9" =
      .error (.fileNotFound ("No such file: \x27z/9\x27")) ∧
    get_link exampleCfg (statObject exampleStore)
      (fun b k e => b ++ "/" ++ k ++ "?expires=" ++ toString e) "a/1" =
      .ok "esperoj/a/1?expires=604800" := by
  constructor
  · exact (C6_get_link_not_found_first exampleCfg (statObject exampleStore)
      "z/9").1 (by decide) _
  · exact ((C6_get_link_not_found_first exampleCfg (statObject exampleStore)
      "a/1").2 (by decide) _).trans (by decide)

/-- C7 counterexample: the claim says `size` on a nonexistent key raises
NotFoundError, but on the concrete empty-probe input the code re-raises the
client's NoSuchKey `S3Error` unchanged (a StorageError), not
NotFoundError. -/
theorem C7_size_missing_counterexample :
    size exampleCfg (statObject exampleStore) "z/9" =
      .error (.s3Error ⟨"NoSuchKey", "Object does not exist"⟩) ∧
    isNotFoundNat (size exampleCfg (statObject exampleStore) "z/9") = false := by
  decide

/-- C7 (amended): `size` on a key holding an uploaded N-byte object with
N > 0 returns exactly N; on a key absent from the bucket the probe's
NoSuchKey `S3Error` propagates unchanged as a StorageError (the code never
converts it to NotFoundError). -/
theorem C7_size_amended (cfg : Config) (store : Store) (key : String)
    (data : List Nat) :
    (lookupStore store key = some data → data ≠ [] →
      size cfg (statObject store) key = .ok data.length) ∧
    (lookupStore store key = none →
      size cfg (statObject store) key =
        .error (.s3Error ⟨"NoSuchKey", "Object does not exist"⟩)) := by
  constructor
  · intro hl hne
    have hlen : data.length ≠ 0 := fun h => hne (List.length_eq_zero.mp h)
    simp [size, statObject, hl, hlen]
  · intro hl
    simp [size, statObject, hl]

/-- Witness for the amended C7: on the concrete store, "a/2" holds 2 bytes
and `size` returns 2; "z/9" is absent and `size` propagates the NoSuchKey
`S3Error`. -/
theorem C7_size_amended_witness :
    size exampleCfg (statObject exampleStore) "a/2" = .ok 2 ∧
    size exampleCfg (statObject exampleStore) "z/9" =
      .error (.s3Error ⟨"NoSuchKey", "Object does not exist"⟩) := by
  constructor
  · exact (C7_size_amended exampleCfg exampleStore "a/2" [20, 21]).1 (by decide)
      (by decide)
  · exact (C7_size_amended exampleCfg exampleStore "z/9" []).2 (by decide)

/-- C8: when the metadata probe succeeds with a falsy (zero) size —
including a legitimate zero-byte object in the store — `size` raises
NotFoundError (`FileNotFoundError()`); any probe error whose code is not
the recognized missing-key "NoSuchKey" propagates as a StorageError (the
re-raised `S3Error`). -/
theorem C8_size_falsy_raises (cfg : Config)
    (stat : String → String → Except S3Err Stat) (src : String) :
    (∀ s, stat (getStr cfg "bucket_name") src = .ok s → s.size = 0 →
      size cfg stat src = .error (.fileNotFound "")) ∧
    (∀ e, stat (getStr cfg "bucket_name") src = .error e → e.code ≠ "NoSuchKey" →
      size cfg stat src = .error (.s3Error e)) ∧
    (∀ (store : Store) (k : String), lookupStore store k = some [] →
      size cfg (statObject store) k = .error (.fileNotFound "")) := by
  refine ⟨?_, ?_, ?_⟩
  · intro s hs h0
    simp [size, hs, h0]
  · intro e he _hc
    simp [size, he]
  · intro store k hk
    simp [size, statObject, hk]

/-- Witness for C8: on the concrete store the zero-byte object "empty"
makes `size` raise NotFoundError, and an AccessDenied probe failure
propagates as a StorageError. -/
theorem C8_size_falsy_raises_witness :
    size exampleCfg (statObject exampleStore) "empty" =
      .error (.fileNotFound "") ∧
    size exampleCfg (fun _ _ => .error ⟨"AccessDenied", "denied"⟩) "a/1" =
      .error (.s3Error ⟨"AccessDenied", "denied"⟩) := by
  constructor
  · exact (C8_size_falsy_raises exampleCfg (statObject exampleStore) "empty").2.2
      exampleStore "empty" (by decide)
  · exact (C8_size_falsy_raises exampleCfg
      (fun _ _ => .error ⟨"AccessDenied", "denied"⟩) "a/1").2.1
      ⟨"AccessDenied", "denied"⟩ rfl (by decide)

/-- C9: `upload_file` issues exactly one client put, of the local content
at `src` to object key `dst` in the configured bucket with the configured
multipart_chunksize as the part size; the put's success is returned and a
client `S3Error` is re-raised (propagating as a StorageError wrapping the
client's native error). -/
theorem C9_upload_file_single_put (cfg : Config)
    (fput : String → String → String → Nat → Except S3Err Unit)
    (src dst : String) :
    ((upload_file cfg fput src dst).2 =
      [⟨getStr cfg "bucket_name", dst, src, getNat cfg "multipart_chunksize"⟩]) ∧
    (∀ u, fput (getStr cfg "bucket_name") dst src (getNat cfg "multipart_chunksize") =
        .ok u → (upload_file cfg fput src dst).1 = .ok u) ∧
    (∀ e, fput (getStr cfg "bucket_name") dst src (getNat cfg "multipart_chunksize") =
        .error e → (upload_file cfg fput src dst).1 = .error (.s3Error e)) := by
  refine ⟨rfl, ?_, ?_⟩
  · intro u hu
    simp [upload_file, hu]
  · intro e he
    simp [upload_file, he]

/-- Witness for C9 at a concrete failing client: exactly one put is issued
with the default bucket and 64 MiB part size, and the client error
propagates. -/
theorem C9_upload_file_single_put_witness :
    (upload_file exampleCfg (fun _ _ _ _ => .error ⟨"AccessDenied", "denied"⟩)
      "local.bin" "remote.bin").2 =
      [⟨"esperoj", "remote.bin", "local.bin", 67108864⟩] ∧
    (upload_file exampleCfg (fun _ _ _ _ => .error ⟨"AccessDenied", "denied"⟩)
      "local.bin" "remote.bin").1 =
      .error (.s3Error ⟨"AccessDenied", "denied"⟩) := by
  constructor
  · exact ((C9_upload_file_single_put exampleCfg
      (fun _ _ _ _ => .error ⟨"AccessDenied", "denied"⟩) "local.bin"
      "remote.bin").1).trans (by decide)
  · exact (C9_upload_file_single_put exampleCfg
      (fun _ _ _ _ => .error ⟨"AccessDenied", "denied"⟩) "local.bin"
      "remote.bin").2.2 ⟨"AccessDenied", "denied"⟩ rfl

end EsperojS3
